import Mathlib

/-!
# WASPP: owning handle wrapper and instance bootstrap

A shallow embedding of `src/main.cpp`.

* Native handles (`VkInstance`, `VkDebugReportCallbackEXT`, `GLFWwindow*`) are natural
  numbers; `VK_NULL_HANDLE` is `0`.
* `VDeleter<T>` is a record of its two members, `object` and `deleter`.  The type-erased
  `std::function<void(T)> deleter` is a state transformer on the environment `ε` the closure
  can reach (what it captured by reference, and the native driver).
* Member functions that mutate the wrapper take the wrapper and the environment and return
  both.
-/

namespace WASPP

/-- An opaque native handle. -/
abbrev Handle := Nat

/-- The null sentinel of every handle type. -/
def VK_NULL_HANDLE : Handle := 0

/-- A `VkAllocationCallbacks*`; `none` is `nullptr`. -/
abbrev Allocator := Option Nat

/-- The class `VDeleter<T>`: `T object{VK_NULL_HANDLE}` and `std::function<void(T)> deleter`. -/
structure VDeleter (ε : Type) where
  object : Handle
  deleter : Handle → ε → ε

/-- A `T*` pointing at a wrapper's `object` member: what can be done through it. -/
structure Slot (ε : Type) where
  read : VDeleter ε → Handle
  write : Handle → VDeleter ε → VDeleter ε

namespace VDeleter

variable {ε ω : Type}

/-- The constructor `VDeleter(std::function<void(T, VkAllocationCallbacks*)> deletef)`:
`deleter = [=](T obj) { deletef(obj, nullptr); }`. -/
def ofDeletef (deletef : Handle → Allocator → ε → ε) : VDeleter ε :=
  { object := VK_NULL_HANDLE
    deleter := fun obj => deletef obj none }

/-- The constructor `VDeleter() : VDeleter([](T, VkAllocationCallbacks*) {})`. -/
def default : VDeleter ε :=
  ofDeletef (fun _ _ e => e)

/-- The conversion `operator T() const`. -/
def toT (d : VDeleter ε) : Handle :=
  d.object

/-- The constructor `VDeleter(const VDeleter<VkInstance>& instance, deletef)`:
`deleter = [&instance, deletef](T obj) { deletef(instance, obj, nullptr); }`.
The captured reference is the first component of the environment handed to the closure when
it runs; `instance` is converted to `VkInstance` by `operator T` at that moment. -/
def ofInstance (deletef : Handle → Handle → Allocator → ω → ω) : VDeleter (VDeleter ω × ω) :=
  { object := VK_NULL_HANDLE
    deleter := fun obj e => (e.1, deletef e.1.toT obj none e.2) }

/-- The constructor `VDeleter(const VDeleter<VkDevice>& device, deletef)`:
`deleter = [&device, deletef](T obj) { deletef(device, obj, nullptr); }`. -/
def ofDevice (deletef : Handle → Handle → Allocator → ω → ω) : VDeleter (VDeleter ω × ω) :=
  { object := VK_NULL_HANDLE
    deleter := fun obj e => (e.1, deletef e.1.toT obj none e.2) }

/-- The private member `cleanup()`. -/
def cleanup (d : VDeleter ε) (e : ε) : VDeleter ε × ε :=
  let e1 := if d.object ≠ VK_NULL_HANDLE then d.deleter d.object e else e
  ({ d with object := VK_NULL_HANDLE }, e1)

/-- The destructor `~VDeleter()`. -/
def destroy (d : VDeleter ε) (e : ε) : VDeleter ε × ε :=
  cleanup d e

/-- The address `&object`. -/
def objectSlot : Slot ε :=
  { read := fun d => d.object
    write := fun v d => { d with object := v } }

/-- The member `const T* operator &() const`. -/
def addressOf (_d : VDeleter ε) : Slot ε :=
  objectSlot

/-- The member `T* replace()`: `cleanup(); return &object;`. -/
def replace (d : VDeleter ε) (e : ε) : Slot ε × VDeleter ε × ε :=
  (objectSlot, cleanup d e)

/-- The member `void operator =(T rhs)`. -/
def assign (rhs : Handle) (d : VDeleter ε) (e : ε) : VDeleter ε × ε :=
  if rhs ≠ d.object then
    let r := cleanup d e
    ({ r.1 with object := rhs }, r.2)
  else
    (d, e)

/-- The member `bool operator ==(V rhs)`. -/
def eq (d : VDeleter ε) (rhs : Handle) : Bool :=
  d.object == rhs

/-- A run of `operator =` calls, in order. -/
def assignAll (vs : List Handle) (s : VDeleter ε × ε) : VDeleter ε × ε :=
  vs.foldl (fun s v => assign v s.1 s.2) s

/-- Successive invocations of a deleter on the handles of a list, in order. -/
def invokeAll (deleter : Handle → ε → ε) (hs : List Handle) (e : ε) : ε :=
  hs.foldl (fun e h => deleter h e) e

/-- A wrapper whose release function appends the handle it is given to a log. -/
def recording : VDeleter (List Handle) :=
  ofDeletef (fun obj _ log => log ++ [obj])

/-- The release log of a fresh recording wrapper after the assignments `vs` and its
destruction. -/
def releaseLog (vs : List Handle) : List Handle :=
  (destroy (assignAll vs (recording, [])).1 (assignAll vs (recording, [])).2).2

end VDeleter

/-- The successive values a wrapper holds when it starts at `c` and is assigned `vs`:
an assignment of the value already held does not start a new holding. -/
def holdings : Handle → List Handle → List Handle
  | c, [] => [c]
  | c, v :: vs => if v ≠ c then c :: holdings v vs else holdings c vs

/-! ## The application -/

/-- A `VkResult`. -/
abbrev VkResult := Int

/-- The success code. -/
def VK_SUCCESS : VkResult := 0

/-- The code `CreateDebugReportCallbackEXT` returns when the entry point is not resolved. -/
def VK_ERROR_EXTENSION_NOT_PRESENT : VkResult := -7

/-- The name of the debug-report extension, as the Vulkan headers define it. -/
def VK_EXT_DEBUG_REPORT_EXTENSION_NAME : String := "VK_EXT_debug_report"

/-- The global `validationLayers`. -/
def validationLayers : List String := ["VK_LAYER_LUNARG_standard_validation"]

/-- The global `WIDTH`. -/
def WIDTH : Nat := 800

/-- The global `HEIGHT`. -/
def HEIGHT : Nat := 600

/-- The record `VkApplicationInfo`; header constants are kept by name, a version by the
arguments of `VK_MAKE_VERSION`. -/
structure VkApplicationInfo where
  sType : String
  pApplicationName : String
  applicationVersion : Nat × Nat × Nat
  pEngineName : String
  engineVersion : Nat × Nat × Nat
  apiVersion : String
  deriving DecidableEq, Repr

/-- The record `VkInstanceCreateInfo`; each count field is the length of its list. -/
structure VkInstanceCreateInfo where
  sType : String
  pApplicationInfo : VkApplicationInfo
  ppEnabledExtensionNames : List String
  ppEnabledLayerNames : List String
  deriving DecidableEq, Repr

/-- The record `VkDebugReportCallbackCreateInfoEXT`; `pfnCallback` is always `debugCallback`. -/
structure VkDebugReportCallbackCreateInfoEXT where
  sType : String
  flags : List String
  pfnCallback : String
  deriving DecidableEq, Repr

/-- What the program does to the outside: each call into GLFW or the Vulkan driver, each
line written to a console stream, and each entry into the release function
`DestroyDebugReportCallbackEXT`. -/
inductive Call where
  | glfwInit
  | glfwWindowHint (hint value : String)
  | glfwCreateWindow (width height : Nat) (title : String)
  | glfwGetRequiredInstanceExtensions
  | vkEnumerateInstanceExtensionProperties
  | vkEnumerateInstanceLayerProperties
  | cout (s : String)
  | cerr (s : String)
  | vkCreateInstance (createInfo : VkInstanceCreateInfo) (pAllocator : Allocator)
  | vkGetInstanceProcAddr (inst : Handle) (name : String)
  | vkCreateDebugReportCallbackEXT (inst : Handle)
      (createInfo : VkDebugReportCallbackCreateInfoEXT) (pAllocator : Allocator)
  | DestroyDebugReportCallbackEXT (inst callback : Handle) (pAllocator : Allocator)
  | vkDestroyDebugReportCallbackEXT (inst callback : Handle) (pAllocator : Allocator)
  | vkDestroyInstance (inst : Handle) (pAllocator : Allocator)
  | glfwWindowShouldClose (window : Handle)
  | glfwPollEvents
  | glfwDestroyWindow (window : Handle)
  | glfwTerminate
  deriving DecidableEq, Repr

/-- The calls made so far, oldest first. -/
abbrev World := List Call

/-- What the outside answers: the build switch, the window system and the driver.  A creation
call answers with its result code and with the handle it stores through its output pointer
(`none`: it stores nothing). -/
structure Env where
  enableValidationLayers : Bool
  uninitialized : Handle
  glfwCreateWindow : Handle
  glfwGetRequiredInstanceExtensions : List String
  aExtensions : List String
  aLayers : List String
  vkCreateInstance : VkInstanceCreateInfo → VkResult × Option Handle
  vkGetInstanceProcAddr : Handle → String → Bool
  vkCreateDebugReportCallbackEXT :
    Handle → VkDebugReportCallbackCreateInfoEXT → VkResult × Option Handle
  closeAfter : Nat

/-- The native `vkDestroyInstance`, the release function bound to the member `instance`. -/
def vkDestroyInstance (inst : Handle) (pAllocator : Allocator) (w : World) : World :=
  w ++ [Call.vkDestroyInstance inst pAllocator]

/-- The static member `DestroyDebugReportCallbackEXT`. -/
def DestroyDebugReportCallbackEXT (env : Env) (inst callback : Handle)
    (pAllocator : Allocator) (w : World) : World :=
  let w0 := w ++ [Call.DestroyDebugReportCallbackEXT inst callback pAllocator]
  let w1 := w0 ++ [Call.vkGetInstanceProcAddr inst "vkDestroyDebugReportCallbackEXT"]
  if env.vkGetInstanceProcAddr inst "vkDestroyDebugReportCallbackEXT" then
    w1 ++ [Call.vkDestroyDebugReportCallbackEXT inst callback pAllocator]
  else
    w1

/-- The class `HelloTriangleApplication`: its members in declaration order. -/
structure HelloTriangleApplication where
  window : Handle
  «instance» : VDeleter World
  callback : VDeleter (VDeleter World × World)

/-- The member initialisers: `instance {vkDestroyInstance}` and
`callback {instance, DestroyDebugReportCallbackEXT}`; `window` is left uninitialised. -/
def HelloTriangleApplication.new (env : Env) : HelloTriangleApplication :=
  { window := env.uninitialized
    «instance» := VDeleter.ofDeletef vkDestroyInstance
    callback := VDeleter.ofInstance (DestroyDebugReportCallbackEXT env) }

/-- The member `initWindow`. -/
def initWindow (env : Env) (app : HelloTriangleApplication) (w : World) :
    HelloTriangleApplication × World :=
  let w1 := w ++ [Call.glfwInit]
  let w2 := w1 ++ [Call.glfwWindowHint "GLFW_CLIENT_API" "GLFW_NO_API"]
  let w3 := w2 ++ [Call.glfwWindowHint "GLFW_RESIZABLE" "GLFW_FALSE"]
  let w4 := w3 ++ [Call.glfwCreateWindow WIDTH HEIGHT "Vulkan"]
  ({ app with window := env.glfwCreateWindow }, w4)

/-- The inner loop of both support checks: scan the advertised names for `name`, stop at the
first exact match.  Returns the flag `foundExtension` (`foundLayer`). -/
def scanAvailable (name : String) : List String → World → Bool × World
  | [], w => (false, w)
  | a :: rest, w =>
    if name = a then (true, w ++ [Call.cout "FOUND\n"])
    else scanAvailable name rest w

/-- The outer loop of both support checks, from index `i` on; `found` is the flag
`foundExtensions` (`foundLayers`). -/
def checkRequired (available : List String) : List String → Bool → World → Bool × World
  | [], found, w => (found, w)
  | name :: rest, found, w =>
    let w1 := w ++ [Call.cout ("Checking for: " ++ name ++ "... ")]
    let r := scanAvailable name available w1
    if !r.1 then checkRequired available rest false (r.2 ++ [Call.cout "FAILED\n"])
    else checkRequired available rest found r.2

/-- The member `checkInstanceExtensionSupport`.  The pair `(extensionCount, extensions)` is
the list `extensions`, whose length is the count and fits the count's type and the `int`
index of the loop; `env.aExtensions` are the names the two enumeration calls report. -/
def checkInstanceExtensionSupport (env : Env) (extensions : List String) (w : World) :
    Bool × World :=
  let w1 := w ++ [Call.vkEnumerateInstanceExtensionProperties]
  let w2 := w1 ++ [Call.vkEnumerateInstanceExtensionProperties]
  let aExtensions := env.aExtensions
  let w3 := w2 ++ [Call.cout ("Checking for " ++ toString extensions.length ++ " extension(s)...\n")]
  let r := checkRequired aExtensions extensions true w3
  if r.1 then (r.1, r.2 ++ [Call.cout "Found all extensions\n"])
  else (r.1, r.2 ++ [Call.cout "Failed to find all extensions\n"])

/-- The member `checkInstanceLayerSupport`.  The pair `(layerCount, layers)` is the list
`layers`, whose length is the count; `env.aLayers` are the names the two enumeration calls
report. -/
def checkInstanceLayerSupport (env : Env) (layers : List String) (w : World) :
    Bool × World :=
  let w1 := w ++ [Call.vkEnumerateInstanceLayerProperties]
  let w2 := w1 ++ [Call.vkEnumerateInstanceLayerProperties]
  let aLayers := env.aLayers
  let w3 := w2 ++ [Call.cout ("Checking for " ++ toString layers.length ++ " layer(s)...\n")]
  let r := checkRequired aLayers layers true w3
  if r.1 then (r.1, r.2 ++ [Call.cout "Found all layers\n"])
  else (r.1, r.2 ++ [Call.cout "Failed to find all layers\n"])

/-- The member `makeApplicationInfo`. -/
def makeApplicationInfo (applicationName : String) (applicationVersion : Nat × Nat × Nat)
    (engineName : String) (engineVersion : Nat × Nat × Nat) (apiVersion : String) :
    VkApplicationInfo :=
  { sType := "VK_STRUCTURE_TYPE_APPLICATION_INFO"
    pApplicationName := applicationName
    applicationVersion := applicationVersion
    pEngineName := engineName
    engineVersion := engineVersion
    apiVersion := apiVersion }

/-- The member `makeInstanceCreateInfo`. -/
def makeInstanceCreateInfo (appInfo : VkApplicationInfo) (extensions layers : List String) :
    VkInstanceCreateInfo :=
  { sType := "VK_STRUCTURE_TYPE_INSTANCE_CREATE_INFO"
    pApplicationInfo := appInfo
    ppEnabledExtensionNames := extensions
    ppEnabledLayerNames := layers }

/-- The member `getRequiredExtensions`. -/
def getRequiredExtensions (env : Env) (w : World) : List String × World :=
  let extensions : List String := []
  let w1 := w ++ [Call.glfwGetRequiredInstanceExtensions]
  let extensions := extensions ++ env.glfwGetRequiredInstanceExtensions
  if env.enableValidationLayers then
    (extensions ++ [VK_EXT_DEBUG_REPORT_EXTENSION_NAME], w1)
  else
    (extensions, w1)

/-- The member `getRequiredLayers`. -/
def getRequiredLayers (env : Env) : List String :=
  let layers : List String := []
  if env.enableValidationLayers then validationLayers ++ layers else layers

/-- A native creation call storing its handle through the output pointer. -/
def storeThrough {ε : Type} (slot : Slot ε) (out : Option Handle) (d : VDeleter ε) :
    VDeleter ε :=
  match out with
  | some h => slot.write h d
  | none => d

/-- The member `createInstance`; a thrown `std::runtime_error` is `Except.error` of its
message. -/
def createInstance (env : Env) (app : HelloTriangleApplication) (w : World) :
    Except String Unit × HelloTriangleApplication × World :=
  let appInfo := makeApplicationInfo "Hello Triangle" (1, 0, 0) "No Engine" (1, 0, 0)
    "VK_API_VERSION_1_0"
  let extensions : List String := []
  let layers : List String := []
  let requiredExtensions := getRequiredExtensions env w
  let requiredLayers := getRequiredLayers env
  let c1 := checkInstanceExtensionSupport env requiredExtensions.1 requiredExtensions.2
  if !c1.1 then
    (.error "an extension was requested but not available", app, c1.2)
  else
    let c2 := checkInstanceLayerSupport env requiredLayers c1.2
    if !c2.1 then
      (.error "a validation layer was requested but not available", app, c2.2)
    else
      let extensions := extensions ++ requiredExtensions.1
      let layers := layers ++ requiredLayers
      let createInfo := makeInstanceCreateInfo appInfo extensions layers
      let r := app.«instance».replace c2.2
      let w1 := r.2.2 ++ [Call.vkCreateInstance createInfo none]
      let res := env.vkCreateInstance createInfo
      let app1 := { app with «instance» := storeThrough r.1 res.2 r.2.1 }
      if res.1 ≠ VK_SUCCESS then
        (.error "failed to create instance!", app1, w1)
      else
        (.ok (), app1, w1)

/-- The member `makeDebugReportCallbackCreateInfo`. -/
def makeDebugReportCallbackCreateInfo : VkDebugReportCallbackCreateInfoEXT :=
  { sType := "VK_STRUCTURE_TYPE_DEBUG_REPORT_CALLBACK_CREATE_INFO_EXT"
    flags := ["VK_DEBUG_REPORT_ERROR_BIT_EXT", "VK_DEBUG_REPORT_WARNING_BIT_EXT"]
    pfnCallback := "debugCallback" }

/-- The member `CreateDebugReportCallbackEXT`; `pCallback` is a slot of the wrapper `target`. -/
def CreateDebugReportCallbackEXT {ε : Type} (env : Env) (inst : Handle)
    (pCreateInfo : VkDebugReportCallbackCreateInfoEXT) (pAllocator : Allocator)
    (pCallback : Slot ε) (target : VDeleter ε) (w : World) :
    VkResult × VDeleter ε × World :=
  let w1 := w ++ [Call.vkGetInstanceProcAddr inst "vkCreateDebugReportCallbackEXT"]
  if env.vkGetInstanceProcAddr inst "vkCreateDebugReportCallbackEXT" then
    let w2 := w1 ++ [Call.vkCreateDebugReportCallbackEXT inst pCreateInfo pAllocator]
    let res := env.vkCreateDebugReportCallbackEXT inst pCreateInfo
    (res.1, storeThrough pCallback res.2 target, w2)
  else
    (VK_ERROR_EXTENSION_NOT_PRESENT, target, w1)

/-- The member `setupDebugCallback`. -/
def setupDebugCallback (env : Env) (app : HelloTriangleApplication) (w : World) :
    Except String Unit × HelloTriangleApplication × World :=
  if !env.enableValidationLayers then
    (.ok (), app, w)
  else
    let createInfo := makeDebugReportCallbackCreateInfo
    let r := app.callback.replace (app.«instance», w)
    let c := CreateDebugReportCallbackEXT env r.2.2.1.toT createInfo none r.1 r.2.1 r.2.2.2
    let app1 := { app with «instance» := r.2.2.1, callback := c.2.1 }
    if c.1 ≠ VK_SUCCESS then
      (.error "failed to setup debug callback", app1, c.2.2)
    else
      (.ok (), app1, c.2.2)

/-- The member `initVulkan`. -/
def initVulkan (env : Env) (app : HelloTriangleApplication) (w : World) :
    Except String Unit × HelloTriangleApplication × World :=
  let r := createInstance env app w
  match r.1 with
  | .error e => (.error e, r.2)
  | .ok _ => setupDebugCallback env r.2.1 r.2.2

/-- The loop of `mainLoop`: `glfwWindowShouldClose` answers false `n` times, then true. -/
def pollEvents (window : Handle) : Nat → World → World
  | 0, w => w ++ [Call.glfwWindowShouldClose window]
  | n + 1, w =>
    pollEvents window n (w ++ [Call.glfwWindowShouldClose window] ++ [Call.glfwPollEvents])

/-- The member `mainLoop`, for a window that is closed after `env.closeAfter` polls. -/
def mainLoop (env : Env) (app : HelloTriangleApplication) (w : World) : World :=
  let w1 := pollEvents app.window env.closeAfter w
  let w2 := w1 ++ [Call.glfwDestroyWindow app.window]
  w2 ++ [Call.glfwTerminate]

/-- The member `run`. -/
def run (env : Env) (app : HelloTriangleApplication) (w : World) :
    Except String Unit × HelloTriangleApplication × World :=
  let r0 := initWindow env app w
  let r := initVulkan env r0.1 r0.2
  match r.1 with
  | .error e => (.error e, r.2)
  | .ok _ => (.ok (), r.2.1, mainLoop env r.2.1 r.2.2)

/-- The implicit destructor of `HelloTriangleApplication`: the members are destroyed in
reverse declaration order, `callback` and then `instance`. -/
def HelloTriangleApplication.destroy (app : HelloTriangleApplication) (w : World) :
    HelloTriangleApplication × World :=
  let c := app.callback.destroy (app.«instance», w)
  let i := c.2.1.destroy c.2.2
  ({ app with «instance» := i.1, callback := c.1 }, i.2)

/-- The exit status `EXIT_SUCCESS`. -/
def EXIT_SUCCESS : Int := 0

/-- The exit status `EXIT_FAILURE`. -/
def EXIT_FAILURE : Int := 1

/-- The state in which `main` leaves its `try` block: the exit status it will return, the
application object and the calls made. -/
def mainBody (env : Env) : Int × HelloTriangleApplication × World :=
  let app := HelloTriangleApplication.new env
  let r := run env app []
  match r.1 with
  | .error e => (EXIT_FAILURE, r.2.1, r.2.2 ++ [Call.cerr (e ++ "\n")])
  | .ok _ => (EXIT_SUCCESS, r.2)

/-- The function `main`: the body, then the destruction of `app` at the end of its scope. -/
def main (env : Env) : Int × HelloTriangleApplication × World :=
  let b := mainBody env
  (b.1, b.2.1.destroy b.2.2)

/-- The calls `main` makes while destroying `app`. -/
def teardown (env : Env) : World :=
  (main env).2.2.drop (mainBody env).2.2.length

/-- An entry into the release function of the member `callback`. -/
def Call.isCallbackRelease : Call → Bool
  | .DestroyDebugReportCallbackEXT _ _ _ => true
  | _ => false

/-- An entry into the release function of the member `instance`. -/
def Call.isInstanceRelease : Call → Bool
  | .vkDestroyInstance _ _ => true
  | _ => false

/-- A native creation call for an instance. -/
def Call.isCreateInstance : Call → Bool
  | .vkCreateInstance _ _ => true
  | _ => false

/-- A call of the negotiation phase: an enumeration of what the driver or the window system
offers, or a line of console output. -/
def Call.isNegotiation : Call → Bool
  | .glfwGetRequiredInstanceExtensions => true
  | .vkEnumerateInstanceExtensionProperties => true
  | .vkEnumerateInstanceLayerProperties => true
  | .cout _ => true
  | _ => false

/-- An entry into either release function. -/
def Call.isRelease (c : Call) : Bool :=
  c.isCallbackRelease || c.isInstanceRelease

/-- The world `w1` is `w` followed by calls that all satisfy `p`. -/
def Extends (p : Call → Bool) (w w1 : World) : Prop :=
  ∃ evs : List Call, w1 = w ++ evs ∧ ∀ c ∈ evs, p c = true

/-- A driver that keeps the contract of `vkCreateInstance`: when it answers `VK_SUCCESS` it
has stored a non-null handle through the output pointer. -/
def Env.conforming (env : Env) : Prop :=
  ∀ ci : VkInstanceCreateInfo, (env.vkCreateInstance ci).1 = VK_SUCCESS →
    ∃ h : Handle, (env.vkCreateInstance ci).2 = some h ∧ h ≠ VK_NULL_HANDLE

/-- The list of required extensions, which does not depend on the calls made before. -/
def requiredExtensions (env : Env) : List String :=
  (getRequiredExtensions env []).1

/-- A sample environment: the window system requires `A` and `Z`, the driver advertises the
extensions `A` and `B`; validation is disabled. -/
def envMissingZ : Env :=
  { enableValidationLayers := false
    uninitialized := 0
    glfwCreateWindow := 1
    glfwGetRequiredInstanceExtensions := ["A", "Z"]
    aExtensions := ["A", "B"]
    aLayers := []
    vkCreateInstance := fun _ => (VK_SUCCESS, some 11)
    vkGetInstanceProcAddr := fun _ _ => true
    vkCreateDebugReportCallbackEXT := fun _ _ => (VK_SUCCESS, some 22)
    closeAfter := 2 }

/-- A sample environment with validation enabled, where every startup step succeeds: the
driver issues the instance 11 and the debug callback 22. -/
def envDebug : Env :=
  { enableValidationLayers := true
    uninitialized := 0
    glfwCreateWindow := 1
    glfwGetRequiredInstanceExtensions := ["VK_KHR_surface"]
    aExtensions := ["VK_KHR_surface", "VK_EXT_debug_report"]
    aLayers := ["VK_LAYER_LUNARG_standard_validation"]
    vkCreateInstance := fun _ => (VK_SUCCESS, some 11)
    vkGetInstanceProcAddr := fun _ _ => true
    vkCreateDebugReportCallbackEXT := fun _ _ => (VK_SUCCESS, some 22)
    closeAfter := 2 }

/-- A sample environment with validation disabled, where every startup step succeeds. -/
def envRelease : Env :=
  { envDebug with enableValidationLayers := false }

/-- The wrappers of `app` are bound to the release functions of the member initialisers. -/
def Bound (env : Env) (app : HelloTriangleApplication) : Prop :=
  app.«instance».deleter = (HelloTriangleApplication.new env).«instance».deleter ∧
    app.callback.deleter = (HelloTriangleApplication.new env).callback.deleter

/-- A call that is not an entry into a release function. -/
def Call.isQuiet (c : Call) : Bool :=
  !c.isRelease

/-- A call that is not a native creation call for an instance. -/
def Call.isNotCreateInstance (c : Call) : Bool :=
  !c.isCreateInstance

/-! ## The owning handle wrapper -/

section Wrapper

variable {ε : Type}

theorem VDeleter.cleanup_object (d : VDeleter ε) (e : ε) :
    (d.cleanup e).1.object = VK_NULL_HANDLE := rfl

theorem VDeleter.cleanup_deleter (d : VDeleter ε) (e : ε) :
    (d.cleanup e).1.deleter = d.deleter := rfl

theorem VDeleter.cleanup_of_ne (d : VDeleter ε) (e : ε) (h : d.object ≠ VK_NULL_HANDLE) :
    d.cleanup e = ({ d with object := VK_NULL_HANDLE }, d.deleter d.object e) := by
  simp [VDeleter.cleanup, h]

theorem VDeleter.cleanup_of_eq (d : VDeleter ε) (e : ε) (h : d.object = VK_NULL_HANDLE) :
    d.cleanup e = (d, e) := by
  cases d with
  | mk o f =>
    simp only at h
    subst h
    simp [VDeleter.cleanup]

theorem VDeleter.cleanup_idem (d : VDeleter ε) (e : ε) :
    (d.cleanup e).1.cleanup (d.cleanup e).2 = d.cleanup e :=
  VDeleter.cleanup_of_eq _ _ (VDeleter.cleanup_object d e)

theorem VDeleter.assign_deleter (d : VDeleter ε) (e : ε) (v : Handle) :
    (d.assign v e).1.deleter = d.deleter := by
  unfold VDeleter.assign
  split <;> rfl

theorem VDeleter.assign_object (d : VDeleter ε) (e : ε) (v : Handle) :
    (d.assign v e).1.object = v := by
  unfold VDeleter.assign
  split
  · rfl
  · rename_i h
    exact (not_not.mp h).symm

theorem VDeleter.assign_same (d : VDeleter ε) (e : ε) (v : Handle) (h : d.object = v) :
    d.assign v e = (d, e) := by
  simp [VDeleter.assign, h]

theorem holdings_ne_nil (c : Handle) (vs : List Handle) : holdings c vs ≠ [] := by
  induction vs generalizing c with
  | nil => simp [holdings]
  | cons v vs ih =>
    unfold holdings
    split
    · simp
    · exact ih c

theorem mem_holdings_self (c : Handle) (vs : List Handle) : c ∈ holdings c vs := by
  induction vs generalizing c with
  | nil => simp [holdings]
  | cons v vs ih =>
    unfold holdings
    split
    · simp
    · exact ih c

theorem mem_holdings_of_mem (c : Handle) (vs : List Handle) (v : Handle) (hv : v ∈ vs) :
    v ∈ holdings c vs := by
  induction vs generalizing c with
  | nil => cases hv
  | cons a vs ih =>
    unfold holdings
    rcases List.mem_cons.mp hv with h | h
    · subst h
      split
      · exact List.mem_cons_of_mem _ (mem_holdings_self v vs)
      · rename_i hc
        have : v = c := by simpa using hc
        subst this
        exact mem_holdings_self v vs
    · split
      · exact List.mem_cons_of_mem _ (ih a h)
      · exact ih c h

theorem VDeleter.destroy_assignAll (vs : List Handle) (d : VDeleter ε) (e : ε) :
    VDeleter.destroy (VDeleter.assignAll vs (d, e)).1 (VDeleter.assignAll vs (d, e)).2
      = ({ d with object := VK_NULL_HANDLE },
          VDeleter.invokeAll d.deleter ((holdings d.object vs).filter (· ≠ VK_NULL_HANDLE)) e) := by
  induction vs generalizing d e with
  | nil =>
    by_cases h : d.object = VK_NULL_HANDLE
    · simp [VDeleter.assignAll, VDeleter.destroy, VDeleter.cleanup, holdings, h,
        VDeleter.invokeAll]
    · simp [VDeleter.assignAll, VDeleter.destroy, VDeleter.cleanup, holdings, h,
        VDeleter.invokeAll]
  | cons v vs ih =>
    have hstep : VDeleter.assignAll (v :: vs) (d, e)
        = VDeleter.assignAll vs ((d.assign v e).1, (d.assign v e).2) := by
      simp [VDeleter.assignAll]
    rw [hstep]
    by_cases hv : v = d.object
    · have h1 : d.assign v e = (d, e) := VDeleter.assign_same d e v hv.symm
      rw [h1, ih]
      simp [holdings, hv]
    · have h1 : d.assign v e
          = ({ d with object := v }, if d.object ≠ VK_NULL_HANDLE then d.deleter d.object e else e) := by
        simp [VDeleter.assign, VDeleter.cleanup, hv]
      rw [h1, ih]
      by_cases h0 : d.object = VK_NULL_HANDLE
      · have hv0 : ¬ v = VK_NULL_HANDLE := by
          rw [← h0]
          exact hv
        simp [holdings, hv0, h0]
      · simp [holdings, hv, h0, VDeleter.invokeAll]

theorem VDeleter.invokeAll_recording (hs : List Handle) (log : List Handle) :
    VDeleter.invokeAll VDeleter.recording.deleter hs log = log ++ hs := by
  induction hs generalizing log with
  | nil => simp [VDeleter.invokeAll]
  | cons h hs ih =>
    have : VDeleter.invokeAll VDeleter.recording.deleter (h :: hs) log
        = VDeleter.invokeAll VDeleter.recording.deleter hs (log ++ [h]) := by
      simp [VDeleter.invokeAll, VDeleter.recording, VDeleter.ofDeletef]
    rw [this, ih]
    simp

theorem VDeleter.releaseLog_eq (vs : List Handle) :
    VDeleter.releaseLog vs = (holdings VK_NULL_HANDLE vs).filter (· ≠ VK_NULL_HANDLE) := by
  unfold VDeleter.releaseLog
  rw [VDeleter.destroy_assignAll, VDeleter.invokeAll_recording]
  simp [VDeleter.recording, VDeleter.ofDeletef]

/-- C2, as stated, fails: a fresh wrapper assigned 5, then 7, then 5 again and destroyed
invokes its release function three times, twice of them on the same non-null value 5. -/
theorem C2_reassigned_value_released_twice :
    (5 : Handle) ≠ VK_NULL_HANDLE ∧ (5 : Handle) ∈ [5, 7, 5] ∧
      VDeleter.releaseLog [5, 7, 5] = [5, 7, 5] ∧
      (VDeleter.releaseLog [5, 7, 5]).count 5 = 2 ∧
      ¬ (VDeleter.releaseLog [5, 7, 5]).count 5 = 1 := by
  decide

/-- C2, amended: after any sequence of assignments and the destruction of the wrapper, the
release function has been invoked exactly once per holding of a non-null value, in the order
of the holdings (a holding starts when an assignment stores a value different from the one
held, and ends when that value is replaced or the wrapper is destroyed).  Hence every
non-null value ever assigned is released at least once, and exactly as many times as it was
held. -/
theorem C2_release_once_per_holding (d : VDeleter ε) (e : ε) (vs : List Handle) :
    VDeleter.destroy (VDeleter.assignAll vs (d, e)).1 (VDeleter.assignAll vs (d, e)).2
        = ({ d with object := VK_NULL_HANDLE },
            VDeleter.invokeAll d.deleter
              ((holdings d.object vs).filter (· ≠ VK_NULL_HANDLE)) e) ∧
      VDeleter.releaseLog vs = (holdings VK_NULL_HANDLE vs).filter (· ≠ VK_NULL_HANDLE) ∧
      (∀ v, v ∈ vs → v ≠ VK_NULL_HANDLE → 1 ≤ (VDeleter.releaseLog vs).count v) ∧
      (∀ v, v ≠ VK_NULL_HANDLE →
        (VDeleter.releaseLog vs).count v = (holdings VK_NULL_HANDLE vs).count v) := by
  refine ⟨VDeleter.destroy_assignAll vs d e, VDeleter.releaseLog_eq vs, ?_, ?_⟩
  · intro v hv hv0
    rw [VDeleter.releaseLog_eq]
    apply List.count_pos_iff.mpr
    apply List.mem_filter.mpr
    exact ⟨mem_holdings_of_mem _ vs v hv, by simpa using hv0⟩
  · intro v hv0
    rw [VDeleter.releaseLog_eq, List.count_filter]
    simpa using hv0

/-- C2 witness: the amended statement at the assignments 5, 7, 5. -/
theorem C2_release_once_per_holding_witness :
    (5 : Handle) ∈ [5, 7, 5] ∧ (5 : Handle) ≠ VK_NULL_HANDLE ∧
      1 ≤ (VDeleter.releaseLog [5, 7, 5]).count 5 :=
  ⟨by decide, by decide,
    (C2_release_once_per_holding VDeleter.recording [] [5, 7, 5]).2.2.1 5 (by decide)
      (by decide)⟩

/-- C3: destroying (cleaning up) a wrapper that holds a non-null handle invokes the bound
release function exactly once, on that handle, and leaves the handle null; on a wrapper whose
handle is null it invokes nothing and changes nothing; so a second cleanup has no effect. -/
theorem C3_destroy_releases_once (d : VDeleter ε) (e : ε) :
    (d.object ≠ VK_NULL_HANDLE →
        d.destroy e = ({ d with object := VK_NULL_HANDLE }, d.deleter d.object e) ∧
        d.cleanup e = ({ d with object := VK_NULL_HANDLE }, d.deleter d.object e)) ∧
      (d.object = VK_NULL_HANDLE → d.destroy e = (d, e) ∧ d.cleanup e = (d, e)) ∧
      (d.destroy e).1.toT = VK_NULL_HANDLE ∧
      (d.cleanup e).1.toT = VK_NULL_HANDLE ∧
      (d.cleanup e).1.cleanup (d.cleanup e).2 = d.cleanup e ∧
      (d.destroy e).1.destroy (d.destroy e).2 = d.destroy e ∧
      (∀ (deletef : Handle → Allocator → ε → ε) (h : Handle), h ≠ VK_NULL_HANDLE →
        ((VDeleter.objectSlot.write h (VDeleter.ofDeletef deletef)).destroy e).2
          = deletef h none e) ∧
      (∀ (h : Handle) (log : List Handle), h ≠ VK_NULL_HANDLE →
        ((VDeleter.objectSlot.write h VDeleter.recording).destroy log).2 = log ++ [h]) := by
  refine ⟨fun h => ⟨VDeleter.cleanup_of_ne d e h, VDeleter.cleanup_of_ne d e h⟩,
    fun h => ⟨VDeleter.cleanup_of_eq d e h, VDeleter.cleanup_of_eq d e h⟩, rfl, rfl,
    VDeleter.cleanup_idem d e, VDeleter.cleanup_idem d e, ?_, ?_⟩
  · intro deletef h hh
    simp [VDeleter.destroy, VDeleter.cleanup, VDeleter.objectSlot, VDeleter.ofDeletef, hh]
  · intro h log hh
    simp [VDeleter.destroy, VDeleter.cleanup, VDeleter.objectSlot, VDeleter.ofDeletef,
      VDeleter.recording, hh]

/-- C3 witness: a recording wrapper holding 5 is destroyed. -/
theorem C3_destroy_releases_once_witness :
    (VDeleter.objectSlot.write 5 VDeleter.recording).object ≠ VK_NULL_HANDLE ∧
      ((VDeleter.objectSlot.write 5 VDeleter.recording).destroy []).2 = [5] ∧
      ((VDeleter.objectSlot.write 5 VDeleter.recording).destroy []).1.object
        = VK_NULL_HANDLE :=
  ⟨by decide,
    by
      have h := ((C3_destroy_releases_once
        (VDeleter.objectSlot.write 5 VDeleter.recording) []).1 (by decide)).1
      rw [h]
      rfl,
    (C3_destroy_releases_once (VDeleter.objectSlot.write 5 VDeleter.recording) []).2.2.1⟩

/-- C4: assigning a value `v` different from the held handle `c` runs the cleanup and then
stores `v`: the release function is invoked exactly once, on `c`, when `c` is non-null, and
not at all when `c` is null; afterwards the wrapper reads back as `v`. -/
theorem C4_assign_releases_then_stores (d : VDeleter ε) (e : ε) (v : Handle)
    (hv : v ≠ d.object) :
    d.assign v e = (VDeleter.objectSlot.write v (d.cleanup e).1, (d.cleanup e).2) ∧
      (d.object ≠ VK_NULL_HANDLE → (d.assign v e).2 = d.deleter d.object e) ∧
      (d.object = VK_NULL_HANDLE → (d.assign v e).2 = e) ∧
      (d.assign v e).1.toT = v ∧
      (d.assign v e).1.deleter = d.deleter := by
  have h1 : d.assign v e = (VDeleter.objectSlot.write v (d.cleanup e).1, (d.cleanup e).2) := by
    simp [VDeleter.assign, VDeleter.objectSlot, hv]
  refine ⟨h1, ?_, ?_, VDeleter.assign_object d e v, VDeleter.assign_deleter d e v⟩
  · intro h
    rw [h1, VDeleter.cleanup_of_ne d e h]
  · intro h
    rw [h1, VDeleter.cleanup_of_eq d e h]

/-- C4 witness: a recording wrapper holding 5 is assigned 7. -/
theorem C4_assign_releases_then_stores_witness :
    (7 : Handle) ≠ (VDeleter.objectSlot.write 5 VDeleter.recording).object ∧
      ((VDeleter.objectSlot.write 5 VDeleter.recording).assign 7 []).2 = [5] ∧
      ((VDeleter.objectSlot.write 5 VDeleter.recording).assign 7 []).1.toT = 7 :=
  ⟨by decide,
    by
      have h := (C4_assign_releases_then_stores
        (VDeleter.objectSlot.write 5 VDeleter.recording) [] 7 (by decide)).2.1 (by decide)
      rw [h]
      rfl,
    (C4_assign_releases_then_stores
      (VDeleter.objectSlot.write 5 VDeleter.recording) [] 7 (by decide)).2.2.2.1⟩

/-- C5: `replace()` on a wrapper holding a non-null handle `h` invokes the release function
exactly once, on `h`; the slot it returns is the wrapper's own `object`, which reads null at
that moment; a value written through the slot is the handle the wrapper then holds, and it
is that value (when non-null) that the wrapper's destruction releases. -/
theorem C5_replace_releases_then_yields_slot (d : VDeleter ε) (e : ε)
    (h : d.object ≠ VK_NULL_HANDLE) :
    (d.replace e).2.2 = d.deleter d.object e ∧
      (d.replace e).1 = d.addressOf ∧
      (d.replace e).2.1 = { d with object := VK_NULL_HANDLE } ∧
      (d.replace e).1.read (d.replace e).2.1 = VK_NULL_HANDLE ∧
      (∀ v : Handle,
        (d.replace e).1.read ((d.replace e).1.write v (d.replace e).2.1) = v ∧
        ((d.replace e).1.write v (d.replace e).2.1).toT = v ∧
        (d.replace e).1.write v (d.replace e).2.1 = { d with object := v } ∧
        (v ≠ VK_NULL_HANDLE → ∀ e1 : ε,
          ((d.replace e).1.write v (d.replace e).2.1).destroy e1
            = ({ d with object := VK_NULL_HANDLE }, d.deleter v e1))) := by
  have h1 : d.replace e
      = (VDeleter.objectSlot, { d with object := VK_NULL_HANDLE }, d.deleter d.object e) := by
    simp [VDeleter.replace, VDeleter.cleanup_of_ne d e h]
  rw [h1]
  refine ⟨rfl, rfl, rfl, rfl, ?_⟩
  intro v
  refine ⟨rfl, rfl, rfl, ?_⟩
  intro hv e1
  simp [VDeleter.destroy, VDeleter.cleanup, VDeleter.objectSlot, hv]

/-- C5 witness: a recording wrapper holding 5 is prepared for a creation call that
stores 9. -/
theorem C5_replace_releases_then_yields_slot_witness :
    (VDeleter.objectSlot.write 5 VDeleter.recording).object ≠ VK_NULL_HANDLE ∧
      ((VDeleter.objectSlot.write 5 VDeleter.recording).replace []).2.2 = [5] ∧
      ((VDeleter.objectSlot.write 5 VDeleter.recording).replace []).1.read
        ((VDeleter.objectSlot.write 5 VDeleter.recording).replace []).2.1
          = VK_NULL_HANDLE :=
  ⟨by decide,
    by
      have h := (C5_replace_releases_then_yields_slot
        (VDeleter.objectSlot.write 5 VDeleter.recording) [] (by decide)).1
      rw [h]
      rfl,
    (C5_replace_releases_then_yields_slot
      (VDeleter.objectSlot.write 5 VDeleter.recording) [] (by decide)).2.2.2.1⟩

/-- C6: a second consecutive assignment of the same value invokes nothing and changes
nothing, and assigning the value the wrapper already holds is a no-op. -/
theorem C6_assign_same_value_noop (d : VDeleter ε) (e : ε) (v : Handle) :
    (d.assign v e).1.assign v (d.assign v e).2 = d.assign v e ∧
      ((d.assign v e).1.assign v (d.assign v e).2).1.toT = (d.assign v e).1.toT ∧
      ((d.assign v e).1.assign v (d.assign v e).2).2 = (d.assign v e).2 ∧
      (d.object = v → d.assign v e = (d, e)) := by
  have h := VDeleter.assign_same (d.assign v e).1 (d.assign v e).2 v
    (VDeleter.assign_object d e v)
  refine ⟨h, ?_, ?_, VDeleter.assign_same d e v⟩
  · rw [h]
  · rw [h]

/-- C6 witness: a recording wrapper holding 5 is assigned 5. -/
theorem C6_assign_same_value_noop_witness :
    (VDeleter.objectSlot.write 5 VDeleter.recording).object = 5 ∧
      ((VDeleter.objectSlot.write 5 VDeleter.recording).assign 5 []).2 = [] :=
  ⟨by decide,
    by
      have h := (C6_assign_same_value_noop
        (VDeleter.objectSlot.write 5 VDeleter.recording) [] 5).2.2.2 (by decide)
      rw [h]⟩

end Wrapper

/-! ## The capability negotiator -/

theorem scanAvailable_found (name : String) (available : List String) (w : World) :
    (scanAvailable name available w).1 = true ↔ name ∈ available := by
  induction available with
  | nil => simp [scanAvailable]
  | cons a rest ih =>
    unfold scanAvailable
    by_cases h : name = a
    · simp [h]
    · simp [h, ih]

theorem checkRequired_found (available required : List String) (found : Bool) (w : World) :
    (checkRequired available required found w).1 = true
      ↔ found = true ∧ ∀ r ∈ required, r ∈ available := by
  induction required generalizing found w with
  | nil => simp [checkRequired]
  | cons name rest ih =>
    unfold checkRequired
    by_cases h : name ∈ available
    · have h1 := (scanAvailable_found name available
        (w ++ [Call.cout ("Checking for: " ++ name ++ "... ")])).mpr h
      simp [h1, ih, h]
    · have h1 : (scanAvailable name available
          (w ++ [Call.cout ("Checking for: " ++ name ++ "... ")])).1 = false := by
        cases hs : (scanAvailable name available
          (w ++ [Call.cout ("Checking for: " ++ name ++ "... ")])).1 with
        | false => rfl
        | true => exact absurd ((scanAvailable_found name available _).mp hs) h
      simp [h1, ih, h]

theorem checkInstanceExtensionSupport_iff (env : Env) (extensions : List String) (w : World) :
    (checkInstanceExtensionSupport env extensions w).1 = true
      ↔ ∀ r ∈ extensions, r ∈ env.aExtensions := by
  unfold checkInstanceExtensionSupport
  simp only []
  split <;> simp [checkRequired_found]

theorem checkInstanceLayerSupport_iff (env : Env) (layers : List String) (w : World) :
    (checkInstanceLayerSupport env layers w).1 = true ↔ ∀ r ∈ layers, r ∈ env.aLayers := by
  unfold checkInstanceLayerSupport
  simp only []
  split <;> simp [checkRequired_found]

/-- C1: each support check answers true exactly when every required name equals, as a
string, some name the driver advertises; it answers true for no requirement at all and false
when a required name is not advertised. -/
theorem C1_check_support_iff_subset (env : Env) (required : List String) (w : World) :
    ((checkInstanceExtensionSupport env required w).1 = true
        ↔ ∀ r ∈ required, ∃ a ∈ env.aExtensions, r = a) ∧
      ((checkInstanceLayerSupport env required w).1 = true
        ↔ ∀ r ∈ required, ∃ a ∈ env.aLayers, r = a) ∧
      (checkInstanceExtensionSupport env [] w).1 = true ∧
      (checkInstanceLayerSupport env [] w).1 = true ∧
      (∀ r ∈ required, r ∉ env.aExtensions →
        (checkInstanceExtensionSupport env required w).1 = false) ∧
      (∀ r ∈ required, r ∉ env.aLayers →
        (checkInstanceLayerSupport env required w).1 = false) := by
  refine ⟨?_, ?_, ?_, ?_, ?_, ?_⟩
  · rw [checkInstanceExtensionSupport_iff]
    simp
  · rw [checkInstanceLayerSupport_iff]
    simp
  · rw [checkInstanceExtensionSupport_iff]
    simp
  · rw [checkInstanceLayerSupport_iff]
    simp
  · intro r hr hna
    cases hs : (checkInstanceExtensionSupport env required w).1 with
    | false => rfl
    | true => exact absurd ((checkInstanceExtensionSupport_iff env required w).mp hs r hr) hna
  · intro r hr hna
    cases hs : (checkInstanceLayerSupport env required w).1 with
    | false => rfl
    | true => exact absurd ((checkInstanceLayerSupport_iff env required w).mp hs r hr) hna

/-- C1 witness: `Z` is required and not advertised. -/
theorem C1_check_support_iff_subset_witness :
    "Z" ∈ ["A", "Z"] ∧ "Z" ∉ envMissingZ.aExtensions ∧
      (checkInstanceExtensionSupport envMissingZ ["A", "Z"] []).1 = false :=
  ⟨by decide, by decide,
    (C1_check_support_iff_subset envMissingZ ["A", "Z"] []).2.2.2.2.1 "Z" (by decide)
      (by decide)⟩

/-! ## Calls made by each step -/

theorem Extends.refl (p : Call → Bool) (w : World) : Extends p w w :=
  ⟨[], by simp, by simp⟩

theorem Extends.snoc {p : Call → Bool} {w w1 : World} (h : Extends p w w1) (c : Call)
    (hc : p c = true) : Extends p w (w1 ++ [c]) := by
  obtain ⟨evs, he, hp⟩ := h
  refine ⟨evs ++ [c], by simp [he], ?_⟩
  intro x hx
  rcases List.mem_append.mp hx with h1 | h1
  · exact hp x h1
  · have : x = c := by simpa using h1
    rw [this]
    exact hc

theorem Extends.trans {p : Call → Bool} {w w1 w2 : World} (h1 : Extends p w w1)
    (h2 : Extends p w1 w2) : Extends p w w2 := by
  obtain ⟨e1, he1, hp1⟩ := h1
  obtain ⟨e2, he2, hp2⟩ := h2
  refine ⟨e1 ++ e2, by simp [he2, he1], ?_⟩
  intro x hx
  rcases List.mem_append.mp hx with h | h
  · exact hp1 x h
  · exact hp2 x h

theorem Extends.mono {p q : Call → Bool} {w w1 : World} (h : Extends p w w1)
    (hpq : ∀ c, p c = true → q c = true) : Extends q w w1 := by
  obtain ⟨evs, he, hp⟩ := h
  exact ⟨evs, he, fun c hc => hpq c (hp c hc)⟩

theorem scanAvailable_extends (name : String) (available : List String) (w : World) :
    Extends Call.isNegotiation w (scanAvailable name available w).2 := by
  induction available with
  | nil => exact Extends.refl _ _
  | cons a rest ih =>
    unfold scanAvailable
    split
    · exact (Extends.refl _ w).snoc _ rfl
    · exact ih

theorem checkRequired_extends (available required : List String) (found : Bool) (w : World) :
    Extends Call.isNegotiation w (checkRequired available required found w).2 := by
  induction required generalizing found w with
  | nil => exact Extends.refl _ _
  | cons name rest ih =>
    unfold checkRequired
    have h1 : Extends Call.isNegotiation w (scanAvailable name available
        (w ++ [Call.cout ("Checking for: " ++ name ++ "... ")])).2 :=
      ((Extends.refl _ w).snoc _ rfl).trans (scanAvailable_extends _ _ _)
    simp only []
    split
    · exact (h1.snoc (Call.cout "FAILED\n") rfl).trans (ih _ _)
    · exact h1.trans (ih _ _)

theorem checkInstanceExtensionSupport_extends (env : Env) (extensions : List String)
    (w : World) :
    Extends Call.isNegotiation w (checkInstanceExtensionSupport env extensions w).2 := by
  unfold checkInstanceExtensionSupport
  have h1 := ((((Extends.refl Call.isNegotiation w).snoc
    Call.vkEnumerateInstanceExtensionProperties rfl).snoc
    Call.vkEnumerateInstanceExtensionProperties rfl).snoc
    (Call.cout ("Checking for " ++ toString extensions.length ++ " extension(s)...\n"))
    rfl).trans (checkRequired_extends env.aExtensions extensions true _)
  simp only []
  split
  · exact h1.snoc _ rfl
  · exact h1.snoc _ rfl

theorem checkInstanceLayerSupport_extends (env : Env) (layers : List String) (w : World) :
    Extends Call.isNegotiation w (checkInstanceLayerSupport env layers w).2 := by
  unfold checkInstanceLayerSupport
  have h1 := ((((Extends.refl Call.isNegotiation w).snoc
    Call.vkEnumerateInstanceLayerProperties rfl).snoc
    Call.vkEnumerateInstanceLayerProperties rfl).snoc
    (Call.cout ("Checking for " ++ toString layers.length ++ " layer(s)...\n"))
    rfl).trans (checkRequired_extends env.aLayers layers true _)
  simp only []
  split
  · exact h1.snoc _ rfl
  · exact h1.snoc _ rfl

theorem getRequiredExtensions_fst (env : Env) (w : World) :
    (getRequiredExtensions env w).1 = requiredExtensions env := by
  unfold requiredExtensions getRequiredExtensions
  simp only []
  split <;> rfl

theorem getRequiredExtensions_extends (env : Env) (w : World) :
    Extends Call.isNegotiation w (getRequiredExtensions env w).2 := by
  unfold getRequiredExtensions
  simp only []
  split
  · exact (Extends.refl _ w).snoc _ rfl
  · exact (Extends.refl _ w).snoc _ rfl

theorem isQuiet_of_isNegotiation (c : Call) (h : c.isNegotiation = true) :
    c.isQuiet = true := by
  cases c <;> simp_all [Call.isNegotiation, Call.isQuiet, Call.isRelease,
    Call.isCallbackRelease, Call.isInstanceRelease]

theorem isNotCreateInstance_of_isNegotiation (c : Call) (h : c.isNegotiation = true) :
    c.isNotCreateInstance = true := by
  cases c <;> simp_all [Call.isNegotiation, Call.isNotCreateInstance, Call.isCreateInstance]

theorem createInstance_missing (env : Env) (app : HelloTriangleApplication) (w : World)
    (hmiss : ∃ r ∈ requiredExtensions env, r ∉ env.aExtensions) :
    createInstance env app w
      = (.error "an extension was requested but not available", app,
          (checkInstanceExtensionSupport env (requiredExtensions env)
            (getRequiredExtensions env w).2).2) := by
  obtain ⟨r, hr, hna⟩ := hmiss
  have hc : (checkInstanceExtensionSupport env (requiredExtensions env)
      (getRequiredExtensions env w).2).1 = false := by
    cases hs : (checkInstanceExtensionSupport env (requiredExtensions env)
      (getRequiredExtensions env w).2).1 with
    | false => rfl
    | true => exact absurd ((checkInstanceExtensionSupport_iff env _ _).mp hs r hr) hna
  unfold createInstance
  simp only [getRequiredExtensions_fst, hc]
  simp

theorem createInstance_spec (env : Env) (app : HelloTriangleApplication) (w : World)
    (hB : Bound env app) (h0 : app.«instance».object = VK_NULL_HANDLE) :
    Bound env (createInstance env app w).2.1 ∧
      (createInstance env app w).2.1.callback = app.callback ∧
      Extends Call.isQuiet w (createInstance env app w).2.2 ∧
      ((createInstance env app w).1 = .ok () → env.conforming →
        (createInstance env app w).2.1.«instance».object ≠ VK_NULL_HANDLE) := by
  have hx1 : Extends Call.isQuiet w (checkInstanceExtensionSupport env (requiredExtensions env)
      (getRequiredExtensions env w).2).2 :=
    ((getRequiredExtensions_extends env w).trans
      (checkInstanceExtensionSupport_extends env _ _)).mono isQuiet_of_isNegotiation
  have hx2 : Extends Call.isQuiet w (checkInstanceLayerSupport env (getRequiredLayers env)
      (checkInstanceExtensionSupport env (requiredExtensions env)
        (getRequiredExtensions env w).2).2).2 :=
    hx1.trans ((checkInstanceLayerSupport_extends env _ _).mono isQuiet_of_isNegotiation)
  unfold createInstance
  simp only [getRequiredExtensions_fst]
  cases hc1 : (checkInstanceExtensionSupport env (requiredExtensions env)
      (getRequiredExtensions env w).2).1 with
  | false =>
    simp only [Bool.not_false, if_true]
    exact ⟨hB, trivial, hx1, fun h => by cases h⟩
  | true =>
    simp only [Bool.not_true, Bool.false_eq_true, if_false]
    cases hc2 : (checkInstanceLayerSupport env (getRequiredLayers env)
        (checkInstanceExtensionSupport env (requiredExtensions env)
          (getRequiredExtensions env w).2).2).1 with
    | false =>
      simp only [Bool.not_false, if_true]
      exact ⟨hB, trivial, hx2, fun h => by cases h⟩
    | true =>
      simp only [Bool.not_true, Bool.false_eq_true, if_false, VDeleter.replace,
        VDeleter.cleanup_of_eq _ _ h0]
      have hx3 := hx2.snoc (Call.vkCreateInstance (makeInstanceCreateInfo
        (makeApplicationInfo "Hello Triangle" (1, 0, 0) "No Engine" (1, 0, 0)
          "VK_API_VERSION_1_0")
        ([] ++ requiredExtensions env) ([] ++ getRequiredLayers env)) none) rfl
      have hB1 : ∀ out : Option Handle, Bound env
          { app with «instance» := storeThrough VDeleter.objectSlot out app.«instance» } := by
        intro out
        cases out <;> exact hB
      split
      · exact ⟨hB1 _, rfl, hx3, fun h => by cases h⟩
      · rename_i hres
        refine ⟨hB1 _, rfl, hx3, ?_⟩
        intro _ hconf
        obtain ⟨h, hsome, hne⟩ := hconf _ (not_not.mp hres)
        rw [hsome]
        exact hne

theorem setupDebugCallback_disabled (env : Env) (app : HelloTriangleApplication) (w : World)
    (hv : env.enableValidationLayers = false) :
    setupDebugCallback env app w = (.ok (), app, w) := by
  simp [setupDebugCallback, hv]

theorem setupDebugCallback_spec (env : Env) (app : HelloTriangleApplication) (w : World)
    (hB : Bound env app) (hc : app.callback.object = VK_NULL_HANDLE) :
    Bound env (setupDebugCallback env app w).2.1 ∧
      (setupDebugCallback env app w).2.1.«instance» = app.«instance» ∧
      Extends Call.isQuiet w (setupDebugCallback env app w).2.2 := by
  unfold setupDebugCallback
  cases hv : env.enableValidationLayers with
  | false =>
    simp only [Bool.not_false, if_true]
    exact ⟨hB, trivial, Extends.refl _ _⟩
  | true =>
    simp only [Bool.not_true, Bool.false_eq_true, if_false, VDeleter.replace,
      VDeleter.cleanup_of_eq _ _ hc, CreateDebugReportCallbackEXT]
    have hB1 : ∀ out : Option Handle, Bound env
        { app with callback := storeThrough VDeleter.objectSlot out app.callback } := by
      intro out
      cases out <;> exact hB
    have hx1 := (Extends.refl Call.isQuiet w).snoc
      (Call.vkGetInstanceProcAddr app.«instance».toT "vkCreateDebugReportCallbackEXT") rfl
    have hx2 := hx1.snoc (Call.vkCreateDebugReportCallbackEXT app.«instance».toT
      makeDebugReportCallbackCreateInfo none) rfl
    cases hp : env.vkGetInstanceProcAddr app.«instance».toT "vkCreateDebugReportCallbackEXT" with
    | false =>
      simp only [Bool.false_eq_true, if_false]
      split
      · exact ⟨hB, rfl, hx1⟩
      · exact ⟨hB, rfl, hx1⟩
    | true =>
      simp only [if_true]
      split
      · exact ⟨hB1 _, rfl, hx2⟩
      · exact ⟨hB1 _, rfl, hx2⟩

theorem initVulkan_spec (env : Env) (app : HelloTriangleApplication) (w : World)
    (hB : Bound env app) (h0 : app.«instance».object = VK_NULL_HANDLE)
    (hc : app.callback.object = VK_NULL_HANDLE) :
    Bound env (initVulkan env app w).2.1 ∧
      Extends Call.isQuiet w (initVulkan env app w).2.2 ∧
      ((initVulkan env app w).2.1.callback.object ≠ VK_NULL_HANDLE → env.conforming →
        (initVulkan env app w).2.1.«instance».object ≠ VK_NULL_HANDLE) := by
  obtain ⟨c1, c2, c3, c4⟩ := createInstance_spec env app w hB h0
  unfold initVulkan
  simp only []
  cases hr : (createInstance env app w).1 with
  | error e =>
    simp only []
    refine ⟨c1, c3, ?_⟩
    intro hne
    rw [c2] at hne
    exact absurd hc hne
  | ok u =>
    simp only []
    have hc1 : (createInstance env app w).2.1.callback.object = VK_NULL_HANDLE := by
      rw [c2]
      exact hc
    obtain ⟨s1, s2, s3⟩ := setupDebugCallback_spec env (createInstance env app w).2.1
      (createInstance env app w).2.2 c1 hc1
    refine ⟨s1, c3.trans s3, ?_⟩
    intro _ hconf
    rw [s2]
    exact c4 hr hconf

theorem pollEvents_extends (window : Handle) (n : Nat) (w : World) :
    Extends Call.isQuiet w (pollEvents window n w) := by
  induction n generalizing w with
  | zero => exact (Extends.refl _ w).snoc _ rfl
  | succ n ih =>
    unfold pollEvents
    exact (((Extends.refl Call.isQuiet w).snoc (Call.glfwWindowShouldClose window) rfl).snoc
      Call.glfwPollEvents rfl).trans (ih _)

theorem run_spec (env : Env) (app : HelloTriangleApplication) (w : World)
    (hB : Bound env app) (h0 : app.«instance».object = VK_NULL_HANDLE)
    (hc : app.callback.object = VK_NULL_HANDLE) :
    Bound env (run env app w).2.1 ∧
      Extends Call.isQuiet w (run env app w).2.2 ∧
      ((run env app w).2.1.callback.object ≠ VK_NULL_HANDLE → env.conforming →
        (run env app w).2.1.«instance».object ≠ VK_NULL_HANDLE) := by
  have hw : Extends Call.isQuiet w (initWindow env app w).2 :=
    ((((Extends.refl Call.isQuiet w).snoc Call.glfwInit rfl).snoc
      (Call.glfwWindowHint "GLFW_CLIENT_API" "GLFW_NO_API") rfl).snoc
      (Call.glfwWindowHint "GLFW_RESIZABLE" "GLFW_FALSE") rfl).snoc
      (Call.glfwCreateWindow WIDTH HEIGHT "Vulkan") rfl
  obtain ⟨i1, i2, i3⟩ := initVulkan_spec env (initWindow env app w).1 (initWindow env app w).2
    hB h0 hc
  unfold run
  simp only []
  cases hr : (initVulkan env (initWindow env app w).1 (initWindow env app w).2).1 with
  | error e =>
    simp only []
    exact ⟨i1, hw.trans i2, i3⟩
  | ok u =>
    simp only []
    refine ⟨i1, ?_, i3⟩
    unfold mainLoop
    exact (((hw.trans i2).trans (pollEvents_extends _ _ _)).snoc
      (Call.glfwDestroyWindow _) rfl).snoc Call.glfwTerminate rfl

theorem mainBody_spec (env : Env) :
    Bound env (mainBody env).2.1 ∧
      Extends Call.isQuiet [] (mainBody env).2.2 ∧
      ((mainBody env).2.1.callback.object ≠ VK_NULL_HANDLE → env.conforming →
        (mainBody env).2.1.«instance».object ≠ VK_NULL_HANDLE) := by
  obtain ⟨r1, r2, r3⟩ := run_spec env (HelloTriangleApplication.new env) []
    ⟨rfl, rfl⟩ rfl rfl
  unfold mainBody
  simp only []
  cases hr : (run env (HelloTriangleApplication.new env) []).1 with
  | error e =>
    simp only []
    exact ⟨r1, r2.snoc (Call.cerr (e ++ "\n")) rfl, r3⟩
  | ok u =>
    simp only []
    exact ⟨r1, r2, r3⟩

theorem DestroyDebugReportCallbackEXT_append (env : Env) (inst callback : Handle)
    (pAllocator : Allocator) (w : World) :
    DestroyDebugReportCallbackEXT env inst callback pAllocator w
      = w ++ DestroyDebugReportCallbackEXT env inst callback pAllocator [] := by
  unfold DestroyDebugReportCallbackEXT
  simp only []
  split <;> simp

theorem destroy_of_bound (env : Env) (app : HelloTriangleApplication) (w : World)
    (hB : Bound env app) :
    (app.destroy w).2
      = w ++ (if app.callback.object ≠ VK_NULL_HANDLE then
            DestroyDebugReportCallbackEXT env app.«instance».object app.callback.object none []
          else [])
        ++ (if app.«instance».object ≠ VK_NULL_HANDLE then
            [Call.vkDestroyInstance app.«instance».object none]
          else []) := by
  obtain ⟨hi, hc⟩ := hB
  by_cases h1 : app.callback.object = VK_NULL_HANDLE
  · by_cases h2 : app.«instance».object = VK_NULL_HANDLE
    · simp [HelloTriangleApplication.destroy, VDeleter.destroy, VDeleter.cleanup, h1, h2]
    · simp [HelloTriangleApplication.destroy, VDeleter.destroy, VDeleter.cleanup, h1, h2, hi,
        HelloTriangleApplication.new, VDeleter.ofDeletef, vkDestroyInstance]
  · by_cases h2 : app.«instance».object = VK_NULL_HANDLE
    · simp [HelloTriangleApplication.destroy, VDeleter.destroy, VDeleter.cleanup, h1, h2, hc,
        HelloTriangleApplication.new, VDeleter.ofInstance, VDeleter.toT]
      exact DestroyDebugReportCallbackEXT_append env _ _ _ w
    · simp [HelloTriangleApplication.destroy, VDeleter.destroy, VDeleter.cleanup, h1, h2, hi,
        hc, HelloTriangleApplication.new, VDeleter.ofInstance, VDeleter.ofDeletef,
        VDeleter.toT, vkDestroyInstance]
      rw [DestroyDebugReportCallbackEXT_append env _ _ _ w]
      simp

theorem initVulkan_ok (env : Env) (app : HelloTriangleApplication) (w : World)
    (hB : Bound env app) (h0 : app.«instance».object = VK_NULL_HANDLE)
    (hc : app.callback.object = VK_NULL_HANDLE)
    (hok : (initVulkan env app w).1 = .ok ()) (hconf : env.conforming) :
    (initVulkan env app w).2.1.«instance».object ≠ VK_NULL_HANDLE := by
  obtain ⟨c1, c2, _, c4⟩ := createInstance_spec env app w hB h0
  have hc1 : (createInstance env app w).2.1.callback.object = VK_NULL_HANDLE := by
    rw [c2]
    exact hc
  obtain ⟨_, s2, _⟩ := setupDebugCallback_spec env (createInstance env app w).2.1
    (createInstance env app w).2.2 c1 hc1
  unfold initVulkan at hok ⊢
  simp only [] at hok ⊢
  cases hr : (createInstance env app w).1 with
  | error e =>
    rw [hr] at hok
    simp only [] at hok
    cases hok
  | ok u =>
    simp only []
    rw [s2]
    exact c4 hr hconf

theorem run_ok (env : Env) (app : HelloTriangleApplication) (w : World)
    (hB : Bound env app) (h0 : app.«instance».object = VK_NULL_HANDLE)
    (hc : app.callback.object = VK_NULL_HANDLE)
    (hok : (run env app w).1 = .ok ()) (hconf : env.conforming) :
    (run env app w).2.1.«instance».object ≠ VK_NULL_HANDLE := by
  unfold run at hok ⊢
  simp only [] at hok ⊢
  cases hr : (initVulkan env (initWindow env app w).1 (initWindow env app w).2).1 with
  | error e =>
    rw [hr] at hok
    simp only [] at hok
    cases hok
  | ok u =>
    simp only []
    exact initVulkan_ok env (initWindow env app w).1 (initWindow env app w).2 hB h0 hc hr hconf

theorem mainBody_success (env : Env) (hok : (mainBody env).1 = EXIT_SUCCESS)
    (hconf : env.conforming) :
    (mainBody env).2.1.«instance».object ≠ VK_NULL_HANDLE := by
  unfold mainBody at hok ⊢
  simp only [] at hok ⊢
  cases hr : (run env (HelloTriangleApplication.new env) []).1 with
  | error e =>
    rw [hr] at hok
    simp only [] at hok
    exact absurd hok (by decide)
  | ok u =>
    simp only []
    exact run_ok env (HelloTriangleApplication.new env) [] ⟨rfl, rfl⟩ rfl rfl hr hconf

theorem createInstance_callback (env : Env) (app : HelloTriangleApplication) (w : World) :
    (createInstance env app w).2.1.callback = app.callback := by
  unfold createInstance
  simp only []
  split
  · rfl
  · split
    · rfl
    · split <;> rfl

theorem mainBody_callback_disabled (env : Env) (hv : env.enableValidationLayers = false) :
    (mainBody env).2.1.callback.object = VK_NULL_HANDLE := by
  have h1 : ∀ app w, (initVulkan env app w).2.1.callback = app.callback := by
    intro app w
    unfold initVulkan
    simp only []
    cases hr : (createInstance env app w).1 with
    | error e => exact createInstance_callback env app w
    | ok u =>
      simp only []
      rw [setupDebugCallback_disabled env _ _ hv]
      exact createInstance_callback env app w
  have h2 : ∀ app w, (run env app w).2.1.callback = app.callback := by
    intro app w
    unfold run
    simp only []
    cases hr : (initVulkan env (initWindow env app w).1 (initWindow env app w).2).1 with
    | error e => exact h1 _ _
    | ok u => exact h1 _ _
  unfold mainBody
  simp only []
  cases hr : (run env (HelloTriangleApplication.new env) []).1 with
  | error e =>
    simp only []
    rw [h2]
    rfl
  | ok u =>
    simp only []
    rw [h2]
    rfl

theorem main_trace (env : Env) :
    (main env).2.2
      = (mainBody env).2.2
        ++ ((if (mainBody env).2.1.callback.object ≠ VK_NULL_HANDLE then
              DestroyDebugReportCallbackEXT env (mainBody env).2.1.«instance».object
                (mainBody env).2.1.callback.object none []
            else [])
          ++ (if (mainBody env).2.1.«instance».object ≠ VK_NULL_HANDLE then
              [Call.vkDestroyInstance (mainBody env).2.1.«instance».object none]
            else [])) := by
  unfold main
  simp only []
  rw [destroy_of_bound env _ _ (mainBody_spec env).1, List.append_assoc]

theorem teardown_eq (env : Env) :
    teardown env
      = (if (mainBody env).2.1.callback.object ≠ VK_NULL_HANDLE then
              DestroyDebugReportCallbackEXT env (mainBody env).2.1.«instance».object
                (mainBody env).2.1.callback.object none []
            else [])
          ++ (if (mainBody env).2.1.«instance».object ≠ VK_NULL_HANDLE then
              [Call.vkDestroyInstance (mainBody env).2.1.«instance».object none]
            else []) := by
  unfold teardown
  rw [main_trace, List.drop_left]

theorem mem_DestroyDebugReportCallbackEXT (env : Env) (inst callback : Handle)
    (pAllocator : Allocator) (c : Call)
    (hc : c ∈ DestroyDebugReportCallbackEXT env inst callback pAllocator []) :
    c.isInstanceRelease = false ∧
      (c.isCallbackRelease = true →
        c = Call.DestroyDebugReportCallbackEXT inst callback pAllocator) := by
  unfold DestroyDebugReportCallbackEXT at hc
  simp only [] at hc
  split at hc
  · simp at hc
    rcases hc with h | h | h <;> subst h <;>
      simp [Call.isInstanceRelease, Call.isCallbackRelease]
  · simp at hc
    rcases hc with h | h <;> subst h <;>
      simp [Call.isInstanceRelease, Call.isCallbackRelease]

theorem body_quiet (env : Env) (c : Call) (hc : c ∈ (mainBody env).2.2) :
    c.isCallbackRelease = false ∧ c.isInstanceRelease = false := by
  obtain ⟨evs, he, hq⟩ := (mainBody_spec env).2.1
  rw [he] at hc
  have := hq c (by simpa using hc)
  simpa [Call.isQuiet, Call.isRelease] using this

theorem pairwise_release_order (l t : List Call)
    (hl : ∀ x ∈ l, x.isInstanceRelease = false)
    (ht : ∀ y ∈ t, y.isCallbackRelease = false) :
    (l ++ t).Pairwise (fun x y => x.isInstanceRelease = true → y.isCallbackRelease = false) := by
  induction l with
  | nil =>
    simp only [List.nil_append]
    induction t with
    | nil => exact List.Pairwise.nil
    | cons b t iht =>
      refine List.Pairwise.cons ?_ (iht fun y hy => ht y (List.mem_cons_of_mem _ hy))
      intro y hy _
      exact ht y (List.mem_cons_of_mem _ hy)
  | cons a l ih =>
    refine List.Pairwise.cons ?_ (ih fun x hx => hl x (List.mem_cons_of_mem _ hx))
    intro y _ ha
    have := hl a (List.mem_cons_self _ _)
    rw [this] at ha
    cases ha

theorem mainBody_missing (env : Env)
    (hmiss : ∃ r ∈ requiredExtensions env, r ∉ env.aExtensions) :
    mainBody env
      = (EXIT_FAILURE, (initWindow env (HelloTriangleApplication.new env) []).1,
          (checkInstanceExtensionSupport env (requiredExtensions env)
            (getRequiredExtensions env
              (initWindow env (HelloTriangleApplication.new env) []).2).2).2
            ++ [Call.cerr ("an extension was requested but not available" ++ "\n")]) := by
  have hci := createInstance_missing env (initWindow env (HelloTriangleApplication.new env) []).1
    (initWindow env (HelloTriangleApplication.new env) []).2 hmiss
  unfold mainBody run initVulkan
  simp only [hci]

/-- C7: in every execution of `main`, whichever startup step fails or succeeds, no release
function runs before the teardown; in the teardown the release of the debug callback, when
it happens, comes before the release of the instance and never after it, and it is passed
the handle the instance wrapper holds at that moment, which is the handle the instance
release is later given and which is non-null when the driver keeps the contract of
`vkCreateInstance`. -/
theorem C7_callback_release_precedes_instance_release (env : Env) :
    (∀ c ∈ (mainBody env).2.2, c.isCallbackRelease = false ∧ c.isInstanceRelease = false) ∧
      (main env).2.2 = (mainBody env).2.2 ++ teardown env ∧
      (main env).2.2.Pairwise
        (fun x y => x.isInstanceRelease = true → y.isCallbackRelease = false) ∧
      (∀ c ∈ (main env).2.2, c.isCallbackRelease = true →
        c = Call.DestroyDebugReportCallbackEXT (mainBody env).2.1.«instance».toT
          (mainBody env).2.1.callback.toT none) ∧
      (∀ c ∈ (main env).2.2, c.isInstanceRelease = true →
        c = Call.vkDestroyInstance (mainBody env).2.1.«instance».toT none) ∧
      (env.conforming → (mainBody env).2.1.callback.toT ≠ VK_NULL_HANDLE →
        (mainBody env).2.1.«instance».toT ≠ VK_NULL_HANDLE) := by
  have hcb : ∀ c ∈ (if (mainBody env).2.1.callback.object ≠ VK_NULL_HANDLE then
        DestroyDebugReportCallbackEXT env (mainBody env).2.1.«instance».object
          (mainBody env).2.1.callback.object none []
      else []),
      c.isInstanceRelease = false ∧ (c.isCallbackRelease = true →
        c = Call.DestroyDebugReportCallbackEXT (mainBody env).2.1.«instance».object
          (mainBody env).2.1.callback.object none) := by
    intro c hc
    split at hc
    · exact mem_DestroyDebugReportCallbackEXT env _ _ _ c hc
    · cases hc
  have hin : ∀ c ∈ (if (mainBody env).2.1.«instance».object ≠ VK_NULL_HANDLE then
        [Call.vkDestroyInstance (mainBody env).2.1.«instance».object none]
      else []),
      c.isCallbackRelease = false ∧
        c = Call.vkDestroyInstance (mainBody env).2.1.«instance».object none := by
    intro c hc
    split at hc
    · have : c = Call.vkDestroyInstance (mainBody env).2.1.«instance».object none := by
        simpa using hc
      subst this
      exact ⟨rfl, rfl⟩
    · cases hc
  refine ⟨body_quiet env, ?_, ?_, ?_, ?_, ?_⟩
  · rw [main_trace, teardown_eq]
  · rw [main_trace, ← List.append_assoc]
    apply pairwise_release_order
    · intro x hx
      rcases List.mem_append.mp hx with h | h
      · exact (body_quiet env x h).2
      · exact (hcb x h).1
    · intro y hy
      exact (hin y hy).1
  · intro c hc hrel
    rw [main_trace] at hc
    rcases List.mem_append.mp hc with h | h
    · rw [(body_quiet env c h).1] at hrel
      cases hrel
    · rcases List.mem_append.mp h with h1 | h1
      · exact (hcb c h1).2 hrel
      · rw [(hin c h1).1] at hrel
        cases hrel
  · intro c hc hrel
    rw [main_trace] at hc
    rcases List.mem_append.mp hc with h | h
    · rw [(body_quiet env c h).2] at hrel
      cases hrel
    · rcases List.mem_append.mp h with h1 | h1
      · rw [(hcb c h1).1] at hrel
        cases hrel
      · exact (hin c h1).2
  · intro hconf hne
    exact (mainBody_spec env).2.2 hne hconf

/-- C7 witness: the execution in which every startup step succeeds with validation on. -/
theorem C7_callback_release_precedes_instance_release_witness :
    envDebug.conforming ∧ (mainBody envDebug).2.1.callback.toT ≠ VK_NULL_HANDLE ∧
      (mainBody envDebug).2.1.«instance».toT ≠ VK_NULL_HANDLE :=
  ⟨fun _ _ => ⟨11, rfl, by decide⟩, by decide,
    (C7_callback_release_precedes_instance_release envDebug).2.2.2.2.2
      (fun _ _ => ⟨11, rfl, by decide⟩) (by decide)⟩

/-- C8: a wrapper constructed with a parent (an instance or a device wrapper) passes to its
release function the handle the parent holds when the release runs, with a null allocator:
whatever the parent held at the child's construction (null, for the members of the
application), once the parent holds `p` the release of the child's handle `c` is the call
`deletef(p, c, nullptr)`, on destruction, on `replace()` and on assignment alike. -/
theorem C8_release_passes_current_parent {ω : Type}
    (deletef : Handle → Handle → Allocator → ω → ω) (parent : VDeleter ω) (p c : Handle)
    (w : ω) (hc : c ≠ VK_NULL_HANDLE) :
    ((VDeleter.objectSlot.write c (VDeleter.ofInstance deletef)).destroy
        (VDeleter.objectSlot.write p parent, w)).2
        = (VDeleter.objectSlot.write p parent, deletef p c none w) ∧
      ((VDeleter.objectSlot.write c (VDeleter.ofDevice deletef)).destroy
        (VDeleter.objectSlot.write p parent, w)).2
        = (VDeleter.objectSlot.write p parent, deletef p c none w) ∧
      ((VDeleter.objectSlot.write c (VDeleter.ofInstance deletef)).replace
        (VDeleter.objectSlot.write p parent, w)).2.2
        = (VDeleter.objectSlot.write p parent, deletef p c none w) ∧
      (∀ v : Handle, v ≠ c →
        ((VDeleter.objectSlot.write c (VDeleter.ofInstance deletef)).assign v
          (VDeleter.objectSlot.write p parent, w)).2
          = (VDeleter.objectSlot.write p parent, deletef p c none w)) ∧
      (∀ (env : Env) (app : HelloTriangleApplication) (t : World),
        (HelloTriangleApplication.new env).«instance».toT = VK_NULL_HANDLE ∧
        (Bound env app → app.callback.toT = c →
          (app.callback.destroy (VDeleter.objectSlot.write p app.«instance», t)).2.2
            = DestroyDebugReportCallbackEXT env p c none t ∧
          Call.DestroyDebugReportCallbackEXT p c none
            ∈ (app.callback.destroy (VDeleter.objectSlot.write p app.«instance», t)).2.2)) := by
  refine ⟨?_, ?_, ?_, ?_, ?_⟩
  · simp [VDeleter.destroy, VDeleter.cleanup, VDeleter.objectSlot, VDeleter.ofInstance,
      VDeleter.toT, hc]
  · simp [VDeleter.destroy, VDeleter.cleanup, VDeleter.objectSlot, VDeleter.ofDevice,
      VDeleter.toT, hc]
  · simp [VDeleter.replace, VDeleter.cleanup, VDeleter.objectSlot, VDeleter.ofInstance,
      VDeleter.toT, hc]
  · intro v hv
    simp [VDeleter.assign, VDeleter.cleanup, VDeleter.objectSlot, VDeleter.ofInstance,
      VDeleter.toT, hc, hv]
  · intro env app t
    refine ⟨rfl, ?_⟩
    intro hB hcb
    have hcb1 : app.callback.object = c := hcb
    have h1 : (app.callback.destroy (VDeleter.objectSlot.write p app.«instance», t)).2.2
        = DestroyDebugReportCallbackEXT env p c none t := by
      simp [VDeleter.destroy, VDeleter.cleanup, VDeleter.objectSlot, hB.2, hcb1, hc,
        HelloTriangleApplication.new, VDeleter.ofInstance, VDeleter.toT]
    refine ⟨h1, ?_⟩
    rw [h1]
    unfold DestroyDebugReportCallbackEXT
    simp only []
    split <;> simp

/-- C8 witness: a recording release function, a parent that acquires 11 after the child was
constructed, and a child holding 22. -/
theorem C8_release_passes_current_parent_witness :
    (22 : Handle) ≠ VK_NULL_HANDLE ∧
      ((VDeleter.objectSlot.write 22
          (VDeleter.ofInstance
            (fun (i o : Handle) (_ : Allocator) (log : List (Handle × Handle)) =>
              log ++ [(i, o)]))).destroy
        (VDeleter.objectSlot.write 11 (VDeleter.default : VDeleter (List (Handle × Handle))),
          [])).2.2 = [(11, 22)] :=
  ⟨by decide,
    by
      have h := (C8_release_passes_current_parent
        (fun (i o : Handle) (_ : Allocator) (log : List (Handle × Handle)) => log ++ [(i, o)])
        (VDeleter.default : VDeleter (List (Handle × Handle))) 11 22 [] (by decide)).1
      rw [h]
      rfl⟩

/-- C9: when some required extension is not advertised, `createInstance` throws the
missing-extension error without any native instance-creation call and leaves the
application object, in particular the instance wrapper, as it was, whatever layers the
driver advertises; the program then exits with a failure status, the instance wrapper still
null and no instance-creation call made. -/
theorem C9_missing_extension_aborts (env : Env)
    (hmiss : ∃ r ∈ requiredExtensions env, r ∉ env.aExtensions) :
    (∀ (app : HelloTriangleApplication) (w : World),
        (createInstance env app w).1
          = .error "an extension was requested but not available" ∧
        (createInstance env app w).2.1 = app ∧
        (createInstance env app w).2.1.«instance».toT = app.«instance».toT ∧
        Extends Call.isNotCreateInstance w (createInstance env app w).2.2 ∧
        (∀ aLayers : List String,
          createInstance { env with aLayers := aLayers } app w = createInstance env app w)) ∧
      (main env).1 = EXIT_FAILURE ∧
      (mainBody env).2.1.«instance».toT = VK_NULL_HANDLE ∧
      (main env).2.1.«instance».toT = VK_NULL_HANDLE ∧
      (∀ c ∈ (main env).2.2, c.isCreateInstance = false) ∧
      Call.cerr "an extension was requested but not available\n" ∈ (main env).2.2 := by
  have hneg : ∀ w : World, Extends Call.isNotCreateInstance w
      (checkInstanceExtensionSupport env (requiredExtensions env)
        (getRequiredExtensions env w).2).2 := fun w =>
    ((getRequiredExtensions_extends env w).trans
      (checkInstanceExtensionSupport_extends env _ _)).mono isNotCreateInstance_of_isNegotiation
  have hbody := mainBody_missing env hmiss
  have hmain : (main env).2.2 = (mainBody env).2.2 := by
    rw [main_trace]
    have h1 : (mainBody env).2.1.callback.object = VK_NULL_HANDLE := by
      rw [hbody]
      rfl
    have h2 : (mainBody env).2.1.«instance».object = VK_NULL_HANDLE := by
      rw [hbody]
      rfl
    simp [h1, h2]
  refine ⟨?_, ?_, ?_, ?_, ?_, ?_⟩
  · intro app w
    have h := createInstance_missing env app w hmiss
    refine ⟨by rw [h], by rw [h], by rw [h], ?_, ?_⟩
    · rw [h]
      exact hneg w
    · intro aLayers
      rw [h, createInstance_missing { env with aLayers := aLayers } app w hmiss]
      rfl
  · unfold main
    simp only []
    rw [hbody]
  · rw [hbody]
    rfl
  · unfold main HelloTriangleApplication.destroy VDeleter.destroy
    rfl
  · intro c hc
    rw [hmain, hbody] at hc
    have hw : Extends Call.isNotCreateInstance []
        (initWindow env (HelloTriangleApplication.new env) []).2 :=
      ((((Extends.refl Call.isNotCreateInstance []).snoc Call.glfwInit rfl).snoc
        (Call.glfwWindowHint "GLFW_CLIENT_API" "GLFW_NO_API") rfl).snoc
        (Call.glfwWindowHint "GLFW_RESIZABLE" "GLFW_FALSE") rfl).snoc
        (Call.glfwCreateWindow WIDTH HEIGHT "Vulkan") rfl
    obtain ⟨evs, he, hq⟩ := ((hw.trans (hneg _)).snoc
      (Call.cerr ("an extension was requested but not available" ++ "\n")) rfl)
    simp only [] at hc
    rw [he] at hc
    have := hq c (by simpa using hc)
    simpa [Call.isNotCreateInstance] using this
  · rw [hmain, hbody]
    simp

/-- C9 witness: `A` and `Z` required, `A` and `B` advertised. -/
theorem C9_missing_extension_aborts_witness :
    (∃ r ∈ requiredExtensions envMissingZ, r ∉ envMissingZ.aExtensions) ∧
      (main envMissingZ).1 = EXIT_FAILURE ∧
      (mainBody envMissingZ).2.1.«instance».toT = VK_NULL_HANDLE :=
  ⟨⟨"Z", by decide, by decide⟩,
    (C9_missing_extension_aborts envMissingZ ⟨"Z", by decide, by decide⟩).2.1,
    (C9_missing_extension_aborts envMissingZ ⟨"Z", by decide, by decide⟩).2.2.1⟩

/-- C10: with validation disabled `getRequiredLayers` is empty, `setupDebugCallback` makes no
call and changes nothing, the callback wrapper is null when the teardown starts, no callback
release ever runs, and the teardown is exactly the release of the instance handle when one
is held, which is the case after a successful startup on a driver that keeps the contract of
`vkCreateInstance`; with validation enabled `getRequiredLayers` is exactly the
validation-layer name. -/
theorem C10_validation_switch (env : Env) :
    (env.enableValidationLayers = false →
        getRequiredLayers env = [] ∧
        (∀ (app : HelloTriangleApplication) (w : World),
          setupDebugCallback env app w = (.ok (), app, w)) ∧
        (mainBody env).2.1.callback.toT = VK_NULL_HANDLE ∧
        (∀ c ∈ (main env).2.2, c.isCallbackRelease = false) ∧
        (∀ c ∈ (mainBody env).2.2, c.isInstanceRelease = false) ∧
        ((mainBody env).2.1.«instance».toT ≠ VK_NULL_HANDLE →
          teardown env = [Call.vkDestroyInstance (mainBody env).2.1.«instance».toT none]) ∧
        ((mainBody env).2.1.«instance».toT = VK_NULL_HANDLE → teardown env = []) ∧
        ((main env).1 = EXIT_SUCCESS → env.conforming →
          teardown env = [Call.vkDestroyInstance (mainBody env).2.1.«instance».toT none] ∧
          (main env).2.2 = (mainBody env).2.2
            ++ [Call.vkDestroyInstance (mainBody env).2.1.«instance».toT none])) ∧
      (env.enableValidationLayers = true →
        getRequiredLayers env = ["VK_LAYER_LUNARG_standard_validation"]) := by
  refine ⟨?_, ?_⟩
  · intro hv
    have hcb := mainBody_callback_disabled env hv
    have ht1 : (mainBody env).2.1.«instance».object ≠ VK_NULL_HANDLE →
        teardown env = [Call.vkDestroyInstance (mainBody env).2.1.«instance».object none] := by
      intro h
      rw [teardown_eq]
      simp [hcb, h]
    refine ⟨by simp [getRequiredLayers, hv], fun app w => setupDebugCallback_disabled env app w hv,
      hcb, ?_, fun c hc => (body_quiet env c hc).2, ht1, ?_, ?_⟩
    · intro c hc
      rw [main_trace] at hc
      simp only [hcb, ne_eq, not_true_eq_false, if_false, List.nil_append] at hc
      rcases List.mem_append.mp hc with h | h
      · exact (body_quiet env c h).1
      · split at h
        · have : c = Call.vkDestroyInstance (mainBody env).2.1.«instance».object none := by
            simpa using h
          rw [this]
          rfl
        · cases h
    · intro h
      have h1 : (mainBody env).2.1.«instance».object = VK_NULL_HANDLE := h
      rw [teardown_eq]
      simp [hcb, h1]
    · intro hok hconf
      have hne := mainBody_success env hok hconf
      refine ⟨ht1 hne, ?_⟩
      rw [main_trace]
      simp [hcb, hne, VDeleter.toT]
  · intro hv
    simp [getRequiredLayers, hv, validationLayers]

/-- C10 witness: a successful run with validation disabled. -/
theorem C10_validation_switch_witness :
    envRelease.enableValidationLayers = false ∧ (main envRelease).1 = EXIT_SUCCESS ∧
      envRelease.conforming ∧
      teardown envRelease
        = [Call.vkDestroyInstance (mainBody envRelease).2.1.«instance».toT none] :=
  ⟨rfl, by decide, fun _ _ => ⟨11, rfl, by decide⟩,
    ((C10_validation_switch envRelease).1 rfl).2.2.2.2.2.2.2 (by decide)
      (fun _ _ => ⟨11, rfl, by decide⟩) |>.1⟩

end WASPP
